import Mathlib

/-!
Verification of the data-transformation pipeline of `src/di_dash.py`
(crdcj/di-panel): the Normalizer `format_di_dataframe` and the Variation
Calculator `calculate_variation`, embedded shallowly over a column-labelled
table model. Rates are modelled as exact rationals, dates as
year/month/day triples.
-/

deriving instance DecidableEq for Except

/-- A calendar date (year, month, day), as carried by the
`ExpirationDate` column. The time-of-day component dropped by the source's
`.dt.date` conversion is not carried. -/
structure Date where
  year : Nat
  month : Nat
  day : Nat
deriving DecidableEq, Repr

/-- Source step `x.replace(day=1)` of `format_di_dataframe`: truncate a
date to the first day of its month. -/
def Date.replaceDay1 (d : Date) : Date := { d with day := 1 }

/-- A pandas DataFrame as used by the pipeline: an `ExpirationDate` column
of dates plus named rate columns. Each row pairs its expiration date with
the rate values aligned positionally with `rateCols`. -/
structure DataFrame where
  rateCols : List String
  rows : List (Date × List ℚ)
deriving DecidableEq, Repr

/-- Membership test `name in df.columns`, over the rate columns. -/
def DataFrame.hasCol (df : DataFrame) (c : String) : Bool :=
  decide (c ∈ df.rateCols)

/-- The `ExpirationDate` column of a frame. -/
def DataFrame.dates (df : DataFrame) : List Date :=
  df.rows.map Prod.fst

/-- Source step `df.rename(columns=..., inplace=True)`: every occurrence
of the label `old` becomes `new`; row data is untouched. -/
def renameCol (old new : String) (df : DataFrame) : DataFrame :=
  { df with rateCols := df.rateCols.map fun c => if c = old then new else c }

/-- Source step `df["ExpirationDate"] = df["ExpirationDate"].apply(f)`:
transform the date of every row. -/
def mapDates (f : Date → Date) (df : DataFrame) : DataFrame :=
  { df with rows := df.rows.map fun r => (f r.1, r.2) }

/-- Source step `df.query("ExpirationDate in @pre_maturities",
inplace=True)`: keep only the rows whose expiration date is an accepted
maturity. -/
def queryDates (pre_maturities : List Date) (df : DataFrame) : DataFrame :=
  { df with rows := df.rows.filter fun r => decide (r.1 ∈ pre_maturities) }

/-- The Normalizer `format_di_dataframe(df, pre_maturities)` of `src/di_dash.py`, lines
43-56, with the in-place mutation made explicit by state passing: the
result pairs the post-call state of the caller's `df` object with the
function's outcome (`.ok` returned frame, or `.error` for the raised
`ValueError`). The source renames `SettlementRate` (or, failing that,
`CurrentRate`) to `DIRate`, truncates every expiration date to the first
day of its month, and filters to the accepted maturities, mutating `df`
at each step and returning it; when neither rate column is present it
raises before any mutation. -/
def format_di_dataframe (df : DataFrame) (pre_maturities : List Date) :
    DataFrame × Except String DataFrame :=
  if df.hasCol "SettlementRate" then
    let out := queryDates pre_maturities
      (mapDates Date.replaceDay1 (renameCol "SettlementRate" "DIRate" df))
    (out, .ok out)
  else if df.hasCol "CurrentRate" then
    let out := queryDates pre_maturities
      (mapDates Date.replaceDay1 (renameCol "CurrentRate" "DIRate" df))
    (out, .ok out)
  else
    (df, .error "DataFrame does not have a column with DI rates")

/-- The value returned to the caller by `format_di_dataframe` (its
`return df`), or the raised error. -/
def format_di_dataframe_ret (df : DataFrame) (pre_maturities : List Date) :
    Except String DataFrame :=
  (format_di_dataframe df pre_maturities).2

/-- Whether an outcome is a raised error. -/
def isError : Except String DataFrame → Bool
  | .error _ => true
  | .ok _ => false

/-- Positional index of a column label, first occurrence (pandas label
lookup). -/
def colIdx : List String → String → Option Nat
  | [], _ => none
  | c :: rest, name => if c = name then some 0 else (colIdx rest name).map (· + 1)

/-- The rate value of a row at column position `i`. -/
def rowRate (i : Nat) (r : Date × List ℚ) : ℚ :=
  r.2.getD i 0

/-- One row of the merged variation frame: `ExpirationDate`,
`DIRateFinal`, `DIRateInitial` and `Variation`. -/
structure VarRow where
  expirationDate : Date
  diRateFinal : ℚ
  diRateInitial : ℚ
  variation : ℚ
deriving DecidableEq, Repr

/-- The row sequence produced by `pd.merge(df_final, df_initial,
on="ExpirationDate", ...)` with `how="inner"` (the default), followed by
the `Variation` assignment: for each left row in order, one output row per
matching right row in right order, with
`Variation = (DIRateFinal - DIRateInitial) * 10_000`. `i` and `j` locate
the `DIRate` column in the left and right frame. -/
def joinRows (i j : Nat) : List (Date × List ℚ) → List (Date × List ℚ) → List VarRow
  | [], _ => []
  | rf :: rest, rowsI =>
      ((rowsI.filter fun ri => decide (ri.1 = rf.1)).map fun ri =>
        { expirationDate := rf.1
          diRateFinal := rowRate i rf
          diRateInitial := rowRate j ri
          variation := (rowRate i rf - rowRate j ri) * 10000 })
      ++ joinRows i j rest rowsI

/-- The Variation Calculator `calculate_variation(df_final, df_initial)` of `src/di_dash.py`, lines
59-70: inner-merge the two frames on `ExpirationDate` and compute
`Variation = (DIRateFinal - DIRateInitial) * 10_000`. Both inputs carry a
`DIRate` column (so the merge suffixes it to `DIRateFinal` /
`DIRateInitial`); `none` models the `KeyError` the source would raise when
a `DIRate` column is absent. -/
def calculate_variation (df_final df_initial : DataFrame) : Option (List VarRow) :=
  match colIdx df_final.rateCols "DIRate", colIdx df_initial.rateCols "DIRate" with
  | some i, some j => some (joinRows i j df_final.rows df_initial.rows)
  | _, _ => none

/-- Exactly one of the two recognized rate-column names is present. -/
def exactlyOneRateCol (df : DataFrame) : Prop :=
  ("SettlementRate" ∈ df.rateCols ∧ "CurrentRate" ∉ df.rateCols) ∨
  ("CurrentRate" ∈ df.rateCols ∧ "SettlementRate" ∉ df.rateCols)

instance (df : DataFrame) : Decidable (exactlyOneRateCol df) := by
  unfold exactlyOneRateCol; infer_instance

example :
    format_di_dataframe_ret ⟨["SettlementRate"], [(⟨2026, 3, 15⟩, [0])]⟩ [⟨2026, 3, 1⟩]
      = .ok ⟨["DIRate"], [(⟨2026, 3, 1⟩, [0])]⟩ := by decide

/-! ### Helper lemmas -/

theorem hasCol_eq_true_iff (df : DataFrame) (c : String) :
    df.hasCol c = true ↔ c ∈ df.rateCols := by
  simp [DataFrame.hasCol]

theorem mem_rename_of_mem {old nw : String} {cols : List String} (h : old ∈ cols) :
    nw ∈ cols.map fun c => if c = old then nw else c := by
  exact List.mem_map.2 ⟨old, h, by simp⟩

theorem old_not_mem_rename {old nw : String} (cols : List String) (hne : old ≠ nw) :
    old ∉ cols.map fun c => if c = old then nw else c := by
  intro hmem
  obtain ⟨c, _, heq⟩ := List.mem_map.1 hmem
  by_cases hc : c = old
  · rw [if_pos hc] at heq; exact hne heq.symm
  · rw [if_neg hc] at heq; exact hc heq

theorem not_mem_rename {old nw x : String} {cols : List String}
    (hx : x ∉ cols) (hxnw : x ≠ nw) :
    x ∉ cols.map fun c => if c = old then nw else c := by
  intro hmem
  obtain ⟨c, hc, heq⟩ := List.mem_map.1 hmem
  by_cases hco : c = old
  · rw [if_pos hco] at heq; exact hxnw heq.symm
  · rw [if_neg hco] at heq; exact hx (heq ▸ hc)

/-- Successful runs of the Normalizer, case by recognized column. -/
theorem format_ok_cases {df : DataFrame} {pre_maturities : List Date} {out : DataFrame}
    (h : format_di_dataframe_ret df pre_maturities = .ok out) :
    ("SettlementRate" ∈ df.rateCols ∧
      out = queryDates pre_maturities
        (mapDates Date.replaceDay1 (renameCol "SettlementRate" "DIRate" df))) ∨
    ("SettlementRate" ∉ df.rateCols ∧ "CurrentRate" ∈ df.rateCols ∧
      out = queryDates pre_maturities
        (mapDates Date.replaceDay1 (renameCol "CurrentRate" "DIRate" df))) := by
  unfold format_di_dataframe_ret format_di_dataframe at h
  by_cases h1 : df.hasCol "SettlementRate" = true
  · left
    refine ⟨(hasCol_eq_true_iff df _).1 h1, ?_⟩
    simp [h1] at h
    exact h.symm
  · by_cases h2 : df.hasCol "CurrentRate" = true
    · right
      refine ⟨fun hm => h1 ((hasCol_eq_true_iff df _).2 hm), (hasCol_eq_true_iff df _).1 h2, ?_⟩
      simp [h1, h2] at h
      exact h.symm
    · simp [h1, h2] at h

/-- The Normalizer raises exactly when neither recognized column is present. -/
theorem format_error_iff (df : DataFrame) (pre_maturities : List Date) :
    isError (format_di_dataframe_ret df pre_maturities) = true ↔
      ("SettlementRate" ∉ df.rateCols ∧ "CurrentRate" ∉ df.rateCols) := by
  unfold format_di_dataframe_ret format_di_dataframe
  by_cases h1 : "SettlementRate" ∈ df.rateCols
  · have hb : df.hasCol "SettlementRate" = true := (hasCol_eq_true_iff df _).2 h1
    simp [hb, isError, h1]
  · have hb : df.hasCol "SettlementRate" = false := by
      simp [DataFrame.hasCol, h1]
    by_cases h2 : "CurrentRate" ∈ df.rateCols
    · have hb2 : df.hasCol "CurrentRate" = true := (hasCol_eq_true_iff df _).2 h2
      simp [hb, hb2, isError, h2]
    · have hb2 : df.hasCol "CurrentRate" = false := by
        simp [DataFrame.hasCol, h2]
      simp [hb, hb2, isError, h1, h2]

theorem filter_matches_eq_nil {d : Date} {rowsI : List (Date × List ℚ)}
    (h : d ∉ rowsI.map Prod.fst) :
    rowsI.filter (fun ri => decide (ri.1 = d)) = [] := by
  induction rowsI with
  | nil => rfl
  | cons a rest ih =>
    simp only [List.map_cons, List.mem_cons, not_or] at h
    rw [List.filter_cons,
      if_neg (by simp only [decide_eq_true_eq]; exact fun he => h.1 he.symm)]
    exact ih h.2

theorem length_filter_matches {d : Date} {rowsI : List (Date × List ℚ)}
    (hI : (rowsI.map Prod.fst).Nodup) :
    (rowsI.filter fun ri => decide (ri.1 = d)).length
      = if d ∈ rowsI.map Prod.fst then 1 else 0 := by
  induction rowsI with
  | nil => simp
  | cons a rest ih =>
    simp only [List.map_cons, List.nodup_cons] at hI
    simp only [List.map_cons]
    by_cases hd : a.1 = d
    · rw [List.filter_cons, if_pos (by simp [hd])]
      rw [filter_matches_eq_nil (hd ▸ hI.1)]
      rw [if_pos (by rw [hd]; exact List.mem_cons_self _ _)]
      rfl
    · rw [List.filter_cons, if_neg (by simp only [decide_eq_true_eq]; exact hd)]
      rw [ih hI.2]
      by_cases hm : d ∈ rest.map Prod.fst
      · rw [if_pos hm, if_pos (List.mem_cons_of_mem _ hm)]
      · rw [if_neg hm, if_neg (by
          simp only [List.mem_cons, not_or]
          exact ⟨fun he => hd he.symm, hm⟩)]

theorem mem_joinRows {i j : Nat} {rowsF rowsI : List (Date × List ℚ)} {v : VarRow}
    (h : v ∈ joinRows i j rowsF rowsI) :
    v.expirationDate ∈ rowsF.map Prod.fst ∧ v.expirationDate ∈ rowsI.map Prod.fst ∧
      v.variation = (v.diRateFinal - v.diRateInitial) * 10000 := by
  induction rowsF with
  | nil => simp [joinRows] at h
  | cons rf rest ih =>
    simp only [joinRows] at h
    rcases List.mem_append.1 h with hb | hr
    · obtain ⟨ri, hri, hv⟩ := List.mem_map.1 hb
      have hri' := List.mem_filter.1 hri
      have hfst : ri.1 = rf.1 := of_decide_eq_true hri'.2
      subst hv
      refine ⟨List.mem_cons_self _ _, ?_, rfl⟩
      exact List.mem_map.2 ⟨ri, hri'.1, hfst⟩
    · obtain ⟨h1, h2, h3⟩ := ih hr
      exact ⟨List.mem_cons_of_mem _ h1, h2, h3⟩

theorem joinRows_length {i j : Nat} (rowsF rowsI : List (Date × List ℚ))
    (hI : (rowsI.map Prod.fst).Nodup) :
    (joinRows i j rowsF rowsI).length
      = ((rowsF.map Prod.fst).filter fun d => decide (d ∈ rowsI.map Prod.fst)).length := by
  induction rowsF with
  | nil => simp [joinRows]
  | cons rf rest ih =>
    simp only [joinRows, List.length_append, List.length_map, List.map_cons,
      List.filter_cons]
    rw [length_filter_matches hI, ih]
    by_cases hm : rf.1 ∈ rowsI.map Prod.fst
    · rw [if_pos hm, if_pos (by simp [hm])]
      simp [Nat.add_comm]
    · rw [if_neg hm, if_neg (by simp [hm])]
      simp

theorem block_dates (i j : Nat) (rf : Date × List ℚ) (l : List (Date × List ℚ)) :
    ((l.map fun ri =>
        ({ expirationDate := rf.1, diRateFinal := rowRate i rf,
           diRateInitial := rowRate j ri,
           variation := (rowRate i rf - rowRate j ri) * 10000 } : VarRow)).map
      fun v => v.expirationDate) = l.map fun _ => rf.1 := by
  induction l with
  | nil => rfl
  | cons a rest ih => simp only [List.map_cons, ih]

theorem joinRows_map_dates {i j : Nat} (rowsF rowsI : List (Date × List ℚ))
    (hI : (rowsI.map Prod.fst).Nodup) :
    (joinRows i j rowsF rowsI).map (fun v => v.expirationDate)
      = (rowsF.map Prod.fst).filter fun d => decide (d ∈ rowsI.map Prod.fst) := by
  induction rowsF with
  | nil => simp [joinRows]
  | cons rf rest ih =>
    simp only [joinRows, List.map_append, List.map_cons, List.filter_cons]
    rw [block_dates]
    by_cases hm : rf.1 ∈ rowsI.map Prod.fst
    · rw [if_pos (by simp [hm])]
      obtain ⟨a, ha⟩ := List.length_eq_one.1
        (by rw [length_filter_matches hI, if_pos hm] :
          (rowsI.filter fun ri => decide (ri.1 = rf.1)).length = 1)
      rw [ha]
      simp only [List.map_cons, List.map_nil, List.singleton_append]
      rw [ih]
    · rw [if_neg (by simp [hm])]
      rw [filter_matches_eq_nil hm]
      simp only [List.map_nil, List.nil_append]
      exact ih

theorem block_filter_len (i j : Nat) (rf : Date × List ℚ) (d : Date)
    (l : List (Date × List ℚ)) :
    (((l.map fun ri =>
        ({ expirationDate := rf.1, diRateFinal := rowRate i rf,
           diRateInitial := rowRate j ri,
           variation := (rowRate i rf - rowRate j ri) * 10000 } : VarRow)).filter
      fun v => decide (v.expirationDate = d)).length)
      = if rf.1 = d then l.length else 0 := by
  induction l with
  | nil => simp
  | cons a rest ih =>
    simp only [List.map_cons, List.filter_cons]
    by_cases hd : rf.1 = d
    · rw [if_pos (by simp [hd]), if_pos hd]
      simp only [List.length_cons]
      rw [ih, if_pos hd]
    · rw [if_neg (by simp [hd]), if_neg hd]
      rw [ih, if_neg hd]

theorem filter_fst_length (d : Date) (l : List (Date × List ℚ)) :
    ((l.map Prod.fst).filter fun x => decide (x = d)).length
      = (l.filter fun ri => decide (ri.1 = d)).length := by
  induction l with
  | nil => rfl
  | cons a rest ih =>
    simp only [List.map_cons, List.filter_cons]
    by_cases hd : a.1 = d
    · rw [if_pos (by simp [hd]), if_pos (by simp [hd])]
      simp only [List.length_cons, ih]
    · rw [if_neg (by simp [hd]), if_neg (by simp [hd])]
      exact ih

theorem joinRows_count {i j : Nat} (d : Date) (rowsF rowsI : List (Date × List ℚ)) :
    ((joinRows i j rowsF rowsI).filter fun v => decide (v.expirationDate = d)).length
      = ((rowsF.map Prod.fst).filter fun x => decide (x = d)).length
        * ((rowsI.map Prod.fst).filter fun x => decide (x = d)).length := by
  induction rowsF with
  | nil => simp [joinRows]
  | cons rf rest ih =>
    simp only [joinRows, List.filter_append, List.length_append, List.map_cons,
      List.filter_cons]
    rw [block_filter_len, ih]
    by_cases hd : rf.1 = d
    · rw [if_pos hd, if_pos (by simp [hd])]
      simp only [List.length_cons]
      rw [filter_fst_length d rowsI]
      have : rowsI.filter (fun ri => decide (ri.1 = rf.1))
          = rowsI.filter fun ri => decide (ri.1 = d) := by rw [hd]
      rw [this, Nat.add_mul, Nat.one_mul, Nat.add_comm]
    · rw [if_neg hd, if_neg (by simp [hd])]
      simp

theorem colIdx_some_of_mem {c : String} {cols : List String} (h : c ∈ cols) :
    ∃ i, colIdx cols c = some i := by
  induction cols with
  | nil => simp at h
  | cons a rest ih =>
    by_cases ha : a = c
    · exact ⟨0, by simp [colIdx, ha]⟩
    · have h' : c ∈ rest := by
        rcases List.mem_cons.1 h with h1 | h1
        · exact absurd h1.symm ha
        · exact h1
      obtain ⟨i, hi⟩ := ih h'
      exact ⟨i + 1, by simp [colIdx, ha, hi]⟩

theorem calculate_variation_some {df_final df_initial : DataFrame} {out : List VarRow}
    (h : calculate_variation df_final df_initial = some out) :
    ∃ i j, colIdx df_final.rateCols "DIRate" = some i ∧
      colIdx df_initial.rateCols "DIRate" = some j ∧
      out = joinRows i j df_final.rows df_initial.rows := by
  unfold calculate_variation at h
  split at h
  · rename_i i j hF hI
    exact ⟨i, j, hF, hI, (Option.some.injEq _ _ ▸ h).symm⟩
  · simp at h

/-- On success, the output's columns carry `DIRate` and neither recognized
input name. -/
theorem format_out_cols {df : DataFrame} {pre_maturities : List Date} {out : DataFrame}
    (hone : exactlyOneRateCol df)
    (h : format_di_dataframe_ret df pre_maturities = .ok out) :
    "DIRate" ∈ out.rateCols ∧ "SettlementRate" ∉ out.rateCols ∧
      "CurrentRate" ∉ out.rateCols := by
  rcases format_ok_cases h with ⟨hmem, hout⟩ | ⟨hnmem, hmem, hout⟩
  · have hcols : out.rateCols
        = df.rateCols.map fun c => if c = "SettlementRate" then "DIRate" else c := by
      rw [hout]; rfl
    rw [hcols]
    have hcur : "CurrentRate" ∉ df.rateCols := by
      rcases hone with ⟨_, hc⟩ | ⟨_, hs⟩
      · exact hc
      · exact absurd hmem hs
    exact ⟨mem_rename_of_mem hmem,
      old_not_mem_rename _ (by decide),
      not_mem_rename hcur (by decide)⟩
  · have hcols : out.rateCols
        = df.rateCols.map fun c => if c = "CurrentRate" then "DIRate" else c := by
      rw [hout]; rfl
    rw [hcols]
    exact ⟨mem_rename_of_mem hmem,
      not_mem_rename hnmem (by decide),
      old_not_mem_rename _ (by decide)⟩

example :
    calculate_variation ⟨["DIRate"], [(⟨2026, 1, 1⟩, [1/10])]⟩
        ⟨["DIRate"], [(⟨2026, 1, 1⟩, [2/25])]⟩
      = some [⟨⟨2026, 1, 1⟩, 1/10, 2/25, 200⟩] := by
  simp [calculate_variation, joinRows, colIdx, rowRate]
  norm_num

/-! ### Claim theorems -/

/-- C1: every record emitted by the Variation Calculator satisfies
`Variation = (DIRateFinal - DIRateInitial) * 10_000`; in particular (see
the witness) final rate 0.10 against initial rate 0.08 at the same
maturity yields a variation of 200 bps. -/
theorem variation_bps_formula (df_final df_initial : DataFrame)
    (out : List VarRow) (v : VarRow)
    (h : calculate_variation df_final df_initial = some out) (hv : v ∈ out) :
    v.variation = (v.diRateFinal - v.diRateInitial) * 10000 := by
  obtain ⟨i, j, _, _, rfl⟩ := calculate_variation_some h
  exact (mem_joinRows hv).2.2

theorem variation_bps_formula_witness :
    calculate_variation ⟨["DIRate"], [(⟨2026, 1, 1⟩, [1/10])]⟩
        ⟨["DIRate"], [(⟨2026, 1, 1⟩, [2/25])]⟩
      = some [⟨⟨2026, 1, 1⟩, 1/10, 2/25, 200⟩] ∧
    (⟨⟨2026, 1, 1⟩, 1/10, 2/25, 200⟩ : VarRow).variation
      = ((⟨⟨2026, 1, 1⟩, 1/10, 2/25, 200⟩ : VarRow).diRateFinal
          - (⟨⟨2026, 1, 1⟩, 1/10, 2/25, 200⟩ : VarRow).diRateInitial) * 10000 :=
  ⟨by simp [calculate_variation, joinRows, colIdx, rowRate]; norm_num,
   variation_bps_formula ⟨["DIRate"], [(⟨2026, 1, 1⟩, [1/10])]⟩
     ⟨["DIRate"], [(⟨2026, 1, 1⟩, [2/25])]⟩
     [⟨⟨2026, 1, 1⟩, 1/10, 2/25, 200⟩] ⟨⟨2026, 1, 1⟩, 1/10, 2/25, 200⟩
     (by simp [calculate_variation, joinRows, colIdx, rowRate]; norm_num)
     (List.mem_singleton.2 rfl)⟩

/-- C2: the Variation Calculator is an inner join on maturity date: every
emitted record's maturity occurs in both inputs, and with no duplicate
maturities in either input the output has at most `min` of the two row
counts. -/
theorem variation_inner_join (df_final df_initial : DataFrame)
    (out : List VarRow)
    (h : calculate_variation df_final df_initial = some out) :
    (∀ v ∈ out, v.expirationDate ∈ df_final.dates ∧
      v.expirationDate ∈ df_initial.dates) ∧
    (df_final.dates.Nodup → df_initial.dates.Nodup →
      out.length ≤ min df_final.rows.length df_initial.rows.length) := by
  obtain ⟨i, j, _, _, rfl⟩ := calculate_variation_some h
  constructor
  · intro v hv
    exact ⟨(mem_joinRows hv).1, (mem_joinRows hv).2.1⟩
  · intro hF hI
    simp only [DataFrame.dates] at hF hI
    rw [joinRows_length _ _ hI]
    refine le_min ?_ ?_
    · calc ((df_final.rows.map Prod.fst).filter
            fun d => decide (d ∈ df_initial.rows.map Prod.fst)).length
          ≤ (df_final.rows.map Prod.fst).length := List.length_filter_le _ _
        _ = df_final.rows.length := List.length_map _ _
    · have hnd : ((df_final.rows.map Prod.fst).filter
          fun d => decide (d ∈ df_initial.rows.map Prod.fst)).Nodup := hF.filter _
      have hsub : ((df_final.rows.map Prod.fst).filter
          fun d => decide (d ∈ df_initial.rows.map Prod.fst))
            ⊆ df_initial.rows.map Prod.fst := by
        intro x hx
        exact of_decide_eq_true (List.mem_filter.1 hx).2
      calc ((df_final.rows.map Prod.fst).filter
            fun d => decide (d ∈ df_initial.rows.map Prod.fst)).length
          ≤ (df_initial.rows.map Prod.fst).length :=
            (List.subperm_of_subset hnd hsub).length_le
        _ = df_initial.rows.length := List.length_map _ _

theorem variation_inner_join_witness :
    calculate_variation ⟨["DIRate"], [(⟨2026, 1, 1⟩, [0]), (⟨2026, 6, 1⟩, [0])]⟩
        ⟨["DIRate"], [(⟨2026, 1, 1⟩, [0])]⟩
      = some [⟨⟨2026, 1, 1⟩, 0, 0, ((0 : ℚ) - 0) * 10000⟩] ∧
    ((∀ v ∈ [⟨⟨2026, 1, 1⟩, 0, 0, ((0 : ℚ) - 0) * 10000⟩],
        VarRow.expirationDate v
          ∈ DataFrame.dates ⟨["DIRate"], [(⟨2026, 1, 1⟩, [0]), (⟨2026, 6, 1⟩, [0])]⟩ ∧
        VarRow.expirationDate v ∈ DataFrame.dates ⟨["DIRate"], [(⟨2026, 1, 1⟩, [0])]⟩) ∧
      ((DataFrame.dates ⟨["DIRate"], [(⟨2026, 1, 1⟩, [0]), (⟨2026, 6, 1⟩, [0])]⟩).Nodup →
        (DataFrame.dates ⟨["DIRate"], [(⟨2026, 1, 1⟩, [0])]⟩).Nodup →
        ([⟨⟨2026, 1, 1⟩, 0, 0, ((0 : ℚ) - 0) * 10000⟩] : List VarRow).length ≤ min 2 1)) :=
  ⟨rfl, variation_inner_join ⟨["DIRate"], [(⟨2026, 1, 1⟩, [0]), (⟨2026, 6, 1⟩, [0])]⟩
    ⟨["DIRate"], [(⟨2026, 1, 1⟩, [0])]⟩
    [⟨⟨2026, 1, 1⟩, 0, 0, ((0 : ℚ) - 0) * 10000⟩] rfl⟩

/-- C3 counterexample: a table carrying BOTH recognized rate columns does
not make the Normalizer raise — it renames `SettlementRate` and returns
normally, refuting the claim that a schema error is raised when both
columns are present. -/
theorem format_both_cols_no_error :
    "SettlementRate" ∈ (⟨["SettlementRate", "CurrentRate"], []⟩ : DataFrame).rateCols ∧
    "CurrentRate" ∈ (⟨["SettlementRate", "CurrentRate"], []⟩ : DataFrame).rateCols ∧
    isError (format_di_dataframe_ret ⟨["SettlementRate", "CurrentRate"], []⟩ []) = false ∧
    format_di_dataframe_ret ⟨["SettlementRate", "CurrentRate"], []⟩ []
      = .ok ⟨["DIRate", "CurrentRate"], []⟩ := by
  decide

/-- C3 (amended): the Normalizer raises the schema error if and only if
NEITHER `SettlementRate` nor `CurrentRate` is present; when both are
present it silently renames `SettlementRate` and succeeds. -/
theorem format_schema_error_iff_neither (df : DataFrame) (pre_maturities : List Date) :
    isError (format_di_dataframe_ret df pre_maturities) = true ↔
      ("SettlementRate" ∉ df.rateCols ∧ "CurrentRate" ∉ df.rateCols) :=
  format_error_iff df pre_maturities

/-- C4: on a table with exactly one recognized rate column, the Normalizer
succeeds, the output carries the canonical `DIRate` column, and neither
original column name survives. -/
theorem format_renames_to_canonical (df : DataFrame) (pre_maturities : List Date)
    (hone : exactlyOneRateCol df) :
    ∃ out, format_di_dataframe_ret df pre_maturities = .ok out ∧
      "DIRate" ∈ out.rateCols ∧ "SettlementRate" ∉ out.rateCols ∧
      "CurrentRate" ∉ out.rateCols := by
  have hsucc : ∃ out, format_di_dataframe_ret df pre_maturities = .ok out := by
    unfold format_di_dataframe_ret format_di_dataframe
    rcases hone with ⟨hs, _⟩ | ⟨hc, hs⟩
    · have hb : df.hasCol "SettlementRate" = true := (hasCol_eq_true_iff df _).2 hs
      rw [if_pos hb]
      exact ⟨_, rfl⟩
    · have hb : ¬ df.hasCol "SettlementRate" = true := by
        simp only [hasCol_eq_true_iff]
        exact hs
      have hb2 : df.hasCol "CurrentRate" = true := (hasCol_eq_true_iff df _).2 hc
      rw [if_neg hb, if_pos hb2]
      exact ⟨_, rfl⟩
  obtain ⟨out, hout⟩ := hsucc
  exact ⟨out, hout, format_out_cols hone hout⟩

theorem format_renames_to_canonical_witness :
    exactlyOneRateCol ⟨["SettlementRate"], []⟩ ∧
    (∃ out, format_di_dataframe_ret ⟨["SettlementRate"], []⟩ [] = .ok out ∧
      "DIRate" ∈ out.rateCols ∧ "SettlementRate" ∉ out.rateCols ∧
      "CurrentRate" ∉ out.rateCols) :=
  ⟨by decide, format_renames_to_canonical ⟨["SettlementRate"], []⟩ [] (by decide)⟩

/-- C5: on success, every row's maturity is truncated to the first day of
its month BEFORE the accepted-maturities filter is applied: the output
rows are exactly the truncated input rows that pass the filter; and the
truncation maps 2026-03-15 to 2026-03-01. -/
theorem format_truncates_before_filter (df : DataFrame) (pre_maturities : List Date)
    (out : DataFrame) (h : format_di_dataframe_ret df pre_maturities = .ok out) :
    out.rows = ((df.rows.map fun r => (Date.replaceDay1 r.1, r.2)).filter
        fun r => decide (r.1 ∈ pre_maturities)) ∧
      Date.replaceDay1 ⟨2026, 3, 15⟩ = ⟨2026, 3, 1⟩ := by
  refine ⟨?_, rfl⟩
  rcases format_ok_cases h with ⟨_, hout⟩ | ⟨_, _, hout⟩ <;> rw [hout] <;> rfl

theorem format_truncates_before_filter_witness :
    format_di_dataframe_ret ⟨["SettlementRate"], [(⟨2026, 3, 15⟩, [0])]⟩ [⟨2026, 3, 1⟩]
      = .ok ⟨["DIRate"], [(⟨2026, 3, 1⟩, [0])]⟩ ∧
    ((⟨["DIRate"], [(⟨2026, 3, 1⟩, [0])]⟩ : DataFrame).rows
        = (((⟨["SettlementRate"], [(⟨2026, 3, 15⟩, [0])]⟩ : DataFrame).rows.map
            fun r => (Date.replaceDay1 r.1, r.2)).filter
          fun r => decide (r.1 ∈ [⟨2026, 3, 1⟩])) ∧
      Date.replaceDay1 ⟨2026, 3, 15⟩ = ⟨2026, 3, 1⟩) :=
  ⟨by decide, format_truncates_before_filter ⟨["SettlementRate"], [(⟨2026, 3, 15⟩, [0])]⟩
    [⟨2026, 3, 1⟩] ⟨["DIRate"], [(⟨2026, 3, 1⟩, [0])]⟩ (by decide)⟩

theorem queryDates_idem (pre_maturities : List Date) (df : DataFrame) :
    queryDates pre_maturities (queryDates pre_maturities df)
      = queryDates pre_maturities df := by
  unfold queryDates
  simp [List.filter_filter]

/-- C6: every output row's (truncated) maturity belongs to the accepted
set, and the filter is idempotent: re-filtering the output by the same
accepted set leaves it unchanged. -/
theorem format_rows_in_accepted (df : DataFrame) (pre_maturities : List Date)
    (out : DataFrame) (h : format_di_dataframe_ret df pre_maturities = .ok out) :
    (∀ r ∈ out.rows, r.1 ∈ pre_maturities) ∧
      queryDates pre_maturities out = out := by
  rcases format_ok_cases h with ⟨_, hout⟩ | ⟨_, _, hout⟩ <;>
  · constructor
    · intro r hr
      rw [hout] at hr
      exact of_decide_eq_true (List.mem_filter.1 hr).2
    · rw [hout]
      exact queryDates_idem _ _

theorem format_rows_in_accepted_witness :
    format_di_dataframe_ret ⟨["CurrentRate"], [(⟨2026, 3, 15⟩, [0]), (⟨2027, 7, 2⟩, [0])]⟩
        [⟨2026, 3, 1⟩] = .ok ⟨["DIRate"], [(⟨2026, 3, 1⟩, [0])]⟩ ∧
    ((∀ r ∈ (⟨["DIRate"], [(⟨2026, 3, 1⟩, [0])]⟩ : DataFrame).rows,
        r.1 ∈ [(⟨2026, 3, 1⟩ : Date)]) ∧
      queryDates [⟨2026, 3, 1⟩] ⟨["DIRate"], [(⟨2026, 3, 1⟩, [0])]⟩
        = ⟨["DIRate"], [(⟨2026, 3, 1⟩, [0])]⟩) :=
  ⟨by decide, format_rows_in_accepted
    ⟨["CurrentRate"], [(⟨2026, 3, 15⟩, [0]), (⟨2027, 7, 2⟩, [0])]⟩
    [⟨2026, 3, 1⟩] ⟨["DIRate"], [(⟨2026, 3, 1⟩, [0])]⟩ (by decide)⟩

/-- C7 counterexample: the Normalizer DOES mutate the caller's frame in
place — after a successful call the caller's `df` object is no longer
equal to the original input (its rate column has been renamed), refuting
the claim that the input is not mutated from the caller's perspective. -/
theorem format_mutates_input_counterexample :
    (format_di_dataframe ⟨["SettlementRate"], []⟩ []).1
      ≠ (⟨["SettlementRate"], []⟩ : DataFrame) := by
  decide

/-- C7 (amended): the Normalizer is an in-place transform: on success the
post-call state of the caller's frame equals the returned frame (so the
two alias the same mutated object), and on the raised schema error the
input is left unchanged; the transform is otherwise deterministic in its
inputs. -/
theorem format_in_place_semantics (df : DataFrame) (pre_maturities : List Date) :
    (∀ out, (format_di_dataframe df pre_maturities).2 = .ok out →
      (format_di_dataframe df pre_maturities).1 = out) ∧
    (∀ e, (format_di_dataframe df pre_maturities).2 = .error e →
      (format_di_dataframe df pre_maturities).1 = df) := by
  unfold format_di_dataframe
  by_cases h1 : df.hasCol "SettlementRate" = true
  · rw [if_pos h1]
    exact ⟨fun out hout => by simpa using hout, fun e he => by simp at he⟩
  · rw [if_neg h1]
    by_cases h2 : df.hasCol "CurrentRate" = true
    · rw [if_pos h2]
      exact ⟨fun out hout => by simpa using hout, fun e he => by simp at he⟩
    · rw [if_neg h2]
      exact ⟨fun out hout => by simp at hout, fun e he => rfl⟩

theorem format_in_place_semantics_witness :
    (format_di_dataframe ⟨["SettlementRate"], []⟩ []).2 = .ok ⟨["DIRate"], []⟩ ∧
    (format_di_dataframe ⟨["SettlementRate"], []⟩ []).1 = ⟨["DIRate"], []⟩ :=
  ⟨by decide, (format_in_place_semantics ⟨["SettlementRate"], []⟩ []).1
    ⟨["DIRate"], []⟩ (by decide)⟩

/-- C8: with no duplicate maturities in either input, the Variation
Calculator emits its records in the insertion order of the `final`
table's matching rows: the emitted maturity sequence is exactly the
`final` maturity sequence restricted to maturities present in `initial`
(stable, not sorted). -/
theorem variation_preserves_final_order (df_final df_initial : DataFrame)
    (out : List VarRow)
    (h : calculate_variation df_final df_initial = some out)
    (_hF : df_final.dates.Nodup) (hI : df_initial.dates.Nodup) :
    out.map (fun v => v.expirationDate)
      = df_final.dates.filter fun d => decide (d ∈ df_initial.dates) := by
  obtain ⟨i, j, _, _, rfl⟩ := calculate_variation_some h
  simp only [DataFrame.dates] at hI ⊢
  exact joinRows_map_dates _ _ hI

theorem variation_preserves_final_order_witness :
    calculate_variation
        ⟨["DIRate"], [(⟨2027, 5, 1⟩, [0]), (⟨2026, 1, 1⟩, [0]), (⟨2028, 9, 1⟩, [0])]⟩
        ⟨["DIRate"], [(⟨2026, 1, 1⟩, [0]), (⟨2027, 5, 1⟩, [0])]⟩
      = some [⟨⟨2027, 5, 1⟩, 0, 0, ((0 : ℚ) - 0) * 10000⟩,
              ⟨⟨2026, 1, 1⟩, 0, 0, ((0 : ℚ) - 0) * 10000⟩] ∧
    (DataFrame.dates
        ⟨["DIRate"], [(⟨2027, 5, 1⟩, [0]), (⟨2026, 1, 1⟩, [0]), (⟨2028, 9, 1⟩, [0])]⟩).Nodup ∧
    (DataFrame.dates ⟨["DIRate"], [(⟨2026, 1, 1⟩, [0]), (⟨2027, 5, 1⟩, [0])]⟩).Nodup ∧
    ([⟨⟨2027, 5, 1⟩, 0, 0, ((0 : ℚ) - 0) * 10000⟩,
      ⟨⟨2026, 1, 1⟩, 0, 0, ((0 : ℚ) - 0) * 10000⟩] : List VarRow).map
        (fun v => v.expirationDate)
      = (DataFrame.dates
          ⟨["DIRate"], [(⟨2027, 5, 1⟩, [0]), (⟨2026, 1, 1⟩, [0]), (⟨2028, 9, 1⟩, [0])]⟩).filter
        fun d => decide
          (d ∈ DataFrame.dates ⟨["DIRate"], [(⟨2026, 1, 1⟩, [0]), (⟨2027, 5, 1⟩, [0])]⟩) :=
  ⟨rfl, by decide, by decide,
   variation_preserves_final_order
     ⟨["DIRate"], [(⟨2027, 5, 1⟩, [0]), (⟨2026, 1, 1⟩, [0]), (⟨2028, 9, 1⟩, [0])]⟩
     ⟨["DIRate"], [(⟨2026, 1, 1⟩, [0]), (⟨2027, 5, 1⟩, [0])]⟩
     [⟨⟨2027, 5, 1⟩, 0, 0, ((0 : ℚ) - 0) * 10000⟩,
      ⟨⟨2026, 1, 1⟩, 0, 0, ((0 : ℚ) - 0) * 10000⟩]
     rfl (by decide) (by decide)⟩

/-- C9: no deduplication — a maturity occurring `m` times in the final
table and `n` times in the initial table yields exactly `m * n` output
records for that maturity (cross-product fan-out), and the calculator
still returns a result rather than raising. -/
theorem variation_duplicate_fanout (df_final df_initial : DataFrame) (d : Date)
    (m n : Nat)
    (hF : "DIRate" ∈ df_final.rateCols) (hI : "DIRate" ∈ df_initial.rateCols)
    (hm : (df_final.dates.filter fun x => decide (x = d)).length = m)
    (hn : (df_initial.dates.filter fun x => decide (x = d)).length = n) :
    ∃ out, calculate_variation df_final df_initial = some out ∧
      (out.filter fun v => decide (v.expirationDate = d)).length = m * n := by
  obtain ⟨i, hi⟩ := colIdx_some_of_mem hF
  obtain ⟨j, hj⟩ := colIdx_some_of_mem hI
  refine ⟨joinRows i j df_final.rows df_initial.rows, ?_, ?_⟩
  · unfold calculate_variation
    rw [hi, hj]
  · rw [joinRows_count]
    simp only [DataFrame.dates] at hm hn
    rw [hm, hn]

theorem variation_duplicate_fanout_witness :
    "DIRate" ∈ (⟨["DIRate"], [(⟨2026, 1, 1⟩, [0]), (⟨2026, 1, 1⟩, [0])]⟩ : DataFrame).rateCols ∧
    "DIRate" ∈ (⟨["DIRate"],
      [(⟨2026, 1, 1⟩, [0]), (⟨2026, 1, 1⟩, [0]), (⟨2026, 1, 1⟩, [0])]⟩ : DataFrame).rateCols ∧
    ((DataFrame.dates ⟨["DIRate"], [(⟨2026, 1, 1⟩, [0]), (⟨2026, 1, 1⟩, [0])]⟩).filter
      fun x => decide (x = ⟨2026, 1, 1⟩)).length = 2 ∧
    ((DataFrame.dates ⟨["DIRate"],
        [(⟨2026, 1, 1⟩, [0]), (⟨2026, 1, 1⟩, [0]), (⟨2026, 1, 1⟩, [0])]⟩).filter
      fun x => decide (x = ⟨2026, 1, 1⟩)).length = 3 ∧
    (∃ out, calculate_variation ⟨["DIRate"], [(⟨2026, 1, 1⟩, [0]), (⟨2026, 1, 1⟩, [0])]⟩
        ⟨["DIRate"], [(⟨2026, 1, 1⟩, [0]), (⟨2026, 1, 1⟩, [0]), (⟨2026, 1, 1⟩, [0])]⟩
        = some out ∧
      (out.filter fun v => decide (v.expirationDate = (⟨2026, 1, 1⟩ : Date))).length
        = 2 * 3) :=
  ⟨by decide, by decide, by decide, by decide,
   variation_duplicate_fanout
     ⟨["DIRate"], [(⟨2026, 1, 1⟩, [0]), (⟨2026, 1, 1⟩, [0])]⟩
     ⟨["DIRate"], [(⟨2026, 1, 1⟩, [0]), (⟨2026, 1, 1⟩, [0]), (⟨2026, 1, 1⟩, [0])]⟩
     ⟨2026, 1, 1⟩ 2 3 (by decide) (by decide) (by decide) (by decide)⟩

/-- C10: normalization is not re-applicable — a successfully normalized
table carries only the canonical `DIRate` column, so running the
Normalizer on its own output raises the schema error. -/
theorem format_not_reapplicable (df : DataFrame)
    (pre_maturities pre_maturities2 : List Date) (out : DataFrame)
    (hone : exactlyOneRateCol df)
    (h : format_di_dataframe_ret df pre_maturities = .ok out) :
    "DIRate" ∈ out.rateCols ∧
      isError (format_di_dataframe_ret out pre_maturities2) = true := by
  obtain ⟨hdi, hs, hc⟩ := format_out_cols hone h
  exact ⟨hdi, (format_error_iff out pre_maturities2).2 ⟨hs, hc⟩⟩

theorem format_not_reapplicable_witness :
    exactlyOneRateCol ⟨["CurrentRate"], []⟩ ∧
    format_di_dataframe_ret ⟨["CurrentRate"], []⟩ [] = .ok ⟨["DIRate"], []⟩ ∧
    ("DIRate" ∈ (⟨["DIRate"], []⟩ : DataFrame).rateCols ∧
      isError (format_di_dataframe_ret ⟨["DIRate"], []⟩ []) = true) :=
  ⟨by decide, by decide,
   format_not_reapplicable ⟨["CurrentRate"], []⟩ [] [] ⟨["DIRate"], []⟩
     (by decide) (by decide)⟩
